import Mathlib

/-!
Verification development for the openQ meta-scheduler daemon.

The definitions below are a shallow embedding of the Python sources
(`qstat_base.py`, `daemon.py`, `__init__.py`): the multi-tier qstat cache
(`QstatBase.xml`, `QstatBase.jobs`, the staleness predicates, the XML
record parser `QstatBase.parse_xml`) and the daemon's admission check
(`Daemon.full`) and hand-off engine (`Daemon.qsub`, `Daemon.do_some_work`).

Modelling conventions:
* Wall-clock instants and file mtimes are integers (the source uses
  float seconds since the epoch; whole-second instants are enough for
  every claim here); a float value of
  negative infinity (the initial `_xml_mtime` etc.) is modelled as `none`
  in an `Option ℤ`.
* The filesystem and the external commands (`qstat -x`, `qsub`) are
  environment inputs supplied per call: an `Env` carries the current time,
  the state of the on-disk xml cache file, and the outcome of invoking
  `qstat`; writes performed by the code (cache files, staged job files)
  are reported as results or effect traces rather than mutating a global
  filesystem.
* Python exceptions are values of `PyErr`; fallible code returns `Except`.
  `PyErr.ioError` corresponds to `IOError`, `PyErr.parseError` to
  `xml.etree.ElementTree.ParseError` (a `SyntaxError`, hence distinct
  from `IOError`), `PyErr.calledProcessError` to
  `subprocess.CalledProcessError` and `PyErr.valueError` to `ValueError`.
-/

/-- Python exception classes relevant to the embedded code paths. -/
inductive PyErr where
  | valueError (msg : String)
  | calledProcessError
  | ioError
  | parseError
  deriving DecidableEq, Repr

/-- One `<Job>` element of the qstat XML, restricted to the fields that the
embedded parts of `parse_xml` consult for the verified claims: the raw
owner string (`Job_Owner`, host-qualified), the state character
(`job_state`), the `server` string, the optional `Account_Name` text and
the optional `Resource_List` sub-node rendered as (tag, text) pairs.
A well-formed snapshot has non-absent owner / state / server (the source
crashes on `None` for those before any record is produced). -/
structure JobXml where
  job_owner : String
  job_state : String
  server : String
  account_name : Option String
  resource_list : Option (List (String × String))
  deriving DecidableEq, Repr

/-- Raw output of `qstat -x`: either text that `ElementTree.fromstring`
rejects (raising `ParseError`) or a well-formed document, i.e. a list of
job elements. -/
inductive XmlDoc where
  | malformed
  | wellFormed (jobs : List JobXml)
  deriving DecidableEq, Repr

/-- One parsed job record (`qstat_base.py` lines 412-521), restricted to
the fields the verified claims read: `job_owner` (suffix stripped),
`job_state`, and the derived `cluster` and `queue`.  The source record
carries many further fields (timestamps, resources) that do not influence
cluster/queue derivation or the admission check. -/
structure JobRec where
  job_owner : String
  job_state : String
  cluster : String
  queue : String
  deriving DecidableEq, Repr

/-- `ACI_QUEUES` from `openQ/__init__.py`. -/
def ACI_QUEUES : List String := ["dfc13_a_g_sc_default", "dfc13_a_t_bc_default", "open"]

/-- `MAX_ATTEMPTS` from `qstat_base.py` line 39. -/
def MAX_ATTEMPTS : Nat := 15

/-- Character code of the at sign, used when stripping the host suffix
from the raw owner field. -/
def atSignChar : Char := Char.ofNat 64

/-- Python `s.split('@')[0]`: the characters before the first at sign, or
the whole string when none occurs. -/
def pySplitHeadAtSign (s : String) : String :=
  ⟨s.data.takeWhile (fun c => !(c == atSignChar))⟩

/-- Python `s.endswith(suf)`. -/
def pyEndsWith (s suf : String) : Bool := List.isSuffixOf suf.data s.data

/-- Python `s.lower()` for the ASCII identifiers that occur here. -/
def pyLower (s : String) : String := ⟨s.data.map Char.toLower⟩

/-- Per-job part of `QstatBase.parse_xml` (lines 412-521), embedding the
steps that determine the claim-relevant fields:
* `rec['job_owner'] = rec['job_owner'].split('@')[0]` (line 421);
* the account mapping (lines 441-449): `'cyberlamp'` gives cluster
  `cyberlamp` / queue `default`; membership in `ACI_QUEUES` gives cluster
  `aci` / lowercased queue; anything else (including an absent
  `Account_Name`, which compares unequal to every string) raises
  `ValueError('Unhandled account_name ...')`;
* the qos override (lines 466, 488-494): when a `Resource_List` node is
  present, the server name ends with `aci.ics.psu.edu` and the cluster is
  `cyberlamp`, the queue is replaced by the `qos` text, defaulting to
  `default` when no qos entry exists.
The resource flattening loops only add `used_*`/`req_*` fields that the
claims never read, so they are not reflected in `JobRec`. -/
def parseJob (j : JobXml) : Except PyErr JobRec :=
  let owner := pySplitHeadAtSign j.job_owner
  match j.account_name with
  | none => .error (.valueError "Unhandled account_name None")
  | some a =>
    if a = "cyberlamp" then
      let cluster := "cyberlamp"
      let queue := "default"
      let queue :=
        match j.resource_list with
        | none => queue
        | some rl =>
          if pyEndsWith j.server "aci.ics.psu.edu" then
            match rl.find? (fun p => p.1 = "qos") with
            | none => "default"
            | some p => p.2
          else queue
      .ok { job_owner := owner, job_state := j.job_state, cluster := cluster, queue := queue }
    else if a ∈ ACI_QUEUES then
      -- cluster 'aci' never triggers the qos override (line 489 tests cluster == 'cyberlamp')
      .ok { job_owner := owner, job_state := j.job_state, cluster := "aci", queue := pyLower a }
    else
      .error (.valueError "Unhandled account_name")

/-- `QstatBase.parse_xml` (lines 360-523): `ElementTree.fromstring` raises
`ParseError` on malformed input; otherwise each job element is parsed in
order, the first per-job failure propagating. -/
def QstatBase.parse_xml (doc : XmlDoc) : Except PyErr (List JobRec) :=
  match doc with
  | .malformed => .error .parseError
  | .wellFormed js => js.mapM parseJob

/-- Construction parameters of a `QstatBase` instance (lines 69-140):
`stale_sec`, the requested and the effective user names, and whether a
cache directory (hence `xml_fpath` / `jobs_fpath`) is configured. -/
structure QstatConfig where
  staleSec : ℤ
  username : String
  myusername : String
  hasCacheDir : Bool

/-- Mutable attributes of a `QstatBase` instance that the `xml` and `jobs`
accessors read and write: `_xml`, `_xml_mtime`, `_jobs`, `_jobs_mtime`
(lines 110-116; `none` mtime models the initial float('-inf')). -/
structure QstatState where
  xmlVal : Option XmlDoc
  xmlMtime : Option ℤ
  jobsVal : Option (List JobRec)
  jobsMtime : Option ℤ
  deriving DecidableEq, Repr

/-- The pristine state right after `__init__`. -/
def qstatInitState : QstatState :=
  { xmlVal := none, xmlMtime := none, jobsVal := none, jobsMtime := none }

/-- On-disk xml cache file as seen at one instant: its mtime and, if a
`GzipFile` read succeeds, its content (`none` content models a read that
raises, which the source swallows with `except Exception: pass`). -/
structure FileInfo where
  mtime : ℤ
  content : Option XmlDoc

/-- On-disk jobs pickle file as seen at one instant (`none` content models
a `pickle.load` that raises, swallowed at line 322-323). -/
structure JobsFileState where
  mtime : ℤ
  content : Option (List JobRec)

/-- External world as observed during one cache access: the value of
`time()`, the state of the xml cache file (`none` when `not isfile`), and
the outcome of `check_output(['qstat', '-x'])`. -/
structure Env where
  now : ℤ
  xmlFile : Option FileInfo
  qstat : Except Unit XmlDoc

/-- The staleness comparison `time() - mtime >= stale_sec` shared by the
`*_is_stale` properties; an mtime of -inf (`none`) is always stale. -/
def staleQ (now : ℤ) (mtime : Option ℤ) (staleSec : ℤ) : Bool :=
  match mtime with
  | none => true
  | some m => decide (staleSec ≤ now - m)

/-- `QstatBase.xml_file_is_stale` (lines 226-231). -/
def xml_file_is_stale (cfg : QstatConfig) (env : Env) : Bool :=
  !cfg.hasCacheDir ||
    match env.xmlFile with
    | none => true
    | some f => staleQ env.now (some f.mtime) cfg.staleSec

/-- `QstatBase.jobs_file_is_stale` (lines 233-241): the jobs pickle is
stale whenever the xml cache file is stale, or when the pickle itself is
absent or old. -/
def jobs_file_is_stale (cfg : QstatConfig) (env : Env) (jf : Option JobsFileState) : Bool :=
  xml_file_is_stale cfg env ||
    (!cfg.hasCacheDir ||
      match jf with
      | none => true
      | some f => staleQ env.now (some f.mtime) cfg.staleSec)

/-- Tail of the `xml` property once the in-memory copy is known stale
(lines 274-307): invoke `qstat` if permitted.  The returned `Bool` records
whether the external command was invoked.  The write of the fresh output
to the cache file (lines 302-305) touches only the external filesystem,
which subsequent calls observe through their own `Env`. -/
def xmlInvoke (cfg : QstatConfig) (env : Env) (s : QstatState) :
    Except PyErr XmlDoc × QstatState × Bool :=
  if cfg.username ≠ cfg.myusername then
    (.error (.valueError "Cannot run qstat for another user"), s, false)
  else
    match env.qstat with
    | .error _ => (.error .calledProcessError, s, true)
    | .ok x => (.ok x, { s with xmlVal := some x, xmlMtime := some env.now }, true)

/-- Stale path of the `xml` property (lines 274-307): invalidate `_jobs`,
try the cache file, else invoke `qstat`. -/
def xmlRefresh (cfg : QstatConfig) (env : Env) (s : QstatState) :
    Except PyErr XmlDoc × QstatState × Bool :=
  let s := { s with jobsVal := none }
  if xml_file_is_stale cfg env then xmlInvoke cfg env s
  else
    match env.xmlFile with
    | some f =>
      match f.content with
      | some x => (.ok x, { s with xmlVal := some x, xmlMtime := some f.mtime }, false)
      | none => xmlInvoke cfg env s
    | none => xmlInvoke cfg env s

/-- `QstatBase.xml` (lines 253-307).  Result, updated instance state, and
whether the external `qstat` command was invoked. -/
def QstatBase.xml (cfg : QstatConfig) (env : Env) (s : QstatState) :
    Except PyErr XmlDoc × QstatState × Bool :=
  match s.xmlVal with
  | some x =>
    if staleQ env.now s.xmlMtime cfg.staleSec then xmlRefresh cfg env s
    else (.ok x, s, false)
  | none => xmlRefresh cfg env s

/-- The parse/retry loop of the `jobs` property (lines 336-348).  `envs i`
is the environment observed by the xml access of attempt `i` (the 5-second
`sleep(5)` between attempts lets time advance between them).  The fuel
argument counts the attempts still permitted, starting at `MAX_ATTEMPTS`;
the `attempts >= MAX_ATTEMPTS` re-raise corresponds to fuel 1.  Only
`IOError` is caught by the `except IOError` clause: every other exception
(notably `ParseError` from a malformed snapshot and `ValueError` from an
unhandled account) propagates immediately without invalidating `_xml`.
The returned `Nat` counts qstat invocations across the attempts. -/
def parseLoop (cfg : QstatConfig) (envs : Nat → Env) (s : QstatState) :
    Nat → Except PyErr (List JobRec) × QstatState × Nat
  | 0 => (.error .ioError, s, 0)
  | fuel + 1 =>
    match QstatBase.xml cfg (envs 0) s with
    | (.error e, s1, inv) => (.error e, s1, if inv then 1 else 0)
    | (.ok x, s1, inv) =>
      let n := if inv then 1 else 0
      match QstatBase.parse_xml x with
      | .ok js => (.ok js, { s1 with jobsVal := some js }, n)
      | .error e =>
        if e = PyErr.ioError then
          let s2 := { s1 with xmlVal := none }
          if fuel = 0 then (.error e, s2, n)
          else
            let r := parseLoop cfg (fun i => envs (i + 1)) s2 fuel
            (r.1, r.2.1, n + r.2.2)
        else (.error e, s1, n)

/-- Re-parse path of the `jobs` property (lines 328-358): run the retry
loop, then stamp `_jobs_mtime = time()`.  The pickle dump to `jobs_fpath`
(lines 353-356) is an external-filesystem effect observed by later calls
through their own environments. -/
def jobsReparse (cfg : QstatConfig) (envs : Nat → Env) (s : QstatState) :
    Except PyErr (List JobRec) × QstatState × Nat :=
  match parseLoop cfg envs s MAX_ATTEMPTS with
  | (.error e, s1, n) => (.error e, s1, n)
  | (.ok js, s1, n) => (.ok js, { s1 with jobsMtime := some (envs 0).now }, n)

/-- Stale path of the `jobs` property (lines 317-358): try the jobs cache
file, else re-parse from the xml tier. -/
def jobsRefresh (cfg : QstatConfig) (envs : Nat → Env) (jf : Option JobsFileState)
    (s : QstatState) : Except PyErr (List JobRec) × QstatState × Nat :=
  if jobs_file_is_stale cfg (envs 0) jf then jobsReparse cfg envs s
  else
    match jf with
    | some f =>
      match f.content with
      | some js => (.ok js, { s with jobsVal := some js, jobsMtime := some f.mtime }, 0)
      | none => jobsReparse cfg envs s
    | none => jobsReparse cfg envs s

/-- `QstatBase.jobs` (lines 309-358).  `jf` is the observed state of the
jobs pickle file; the returned `Nat` counts qstat invocations. -/
def QstatBase.jobs (cfg : QstatConfig) (envs : Nat → Env) (jf : Option JobsFileState)
    (s : QstatState) : Except PyErr (List JobRec) × QstatState × Nat :=
  match s.jobsVal with
  | some js =>
    if staleQ (envs 0).now s.jobsMtime cfg.staleSec then jobsRefresh cfg envs jf s
    else (.ok js, s, 0)
  | none => jobsRefresh cfg envs jf s

/-- Loop body of the counting loop of `Daemon.full` (daemon.py lines
365-375): skip records not owned by the operating user on cluster `aci`,
queue `open`; bucket the rest into (running, queued, other) by the
`job_state` character. -/
def jobCountStep (myusername : String) (acc : Nat × Nat × Nat) (job : JobRec) :
    Nat × Nat × Nat :=
  if job.cluster ≠ "aci" ∨ job.queue ≠ "open" ∨ job.job_owner ≠ myusername then acc
  else if job.job_state = "R" then (acc.1 + 1, acc.2.1, acc.2.2)
  else if job.job_state = "Q" then (acc.1, acc.2.1 + 1, acc.2.2)
  else (acc.1, acc.2.1, acc.2.2 + 1)

/-- The counting loop of `Daemon.full` (daemon.py lines 356-379). -/
def jobCounts (myusername : String) (js : List JobRec) : Nat × Nat × Nat :=
  js.foldl (jobCountStep myusername) (0, 0, 0)

/-- The verdict of `Daemon.full` (lines 381-385): not full exactly when
`running < self.n_run and queued < self.n_queue`. -/
def Daemon.fullVerdict (myusername : String) (n_run n_queue : Nat) (js : List JobRec) : Bool :=
  let c := jobCounts myusername js
  if c.1 < n_run ∧ c.2.1 < n_queue then false else true

/-- Number of cached records that the claim counts as running for the
user: owner is the operating user, (cluster, queue) is ('aci', 'open'),
state 'R'. -/
def runningCount (u : String) (js : List JobRec) : Nat :=
  js.countP (fun j => j.job_owner == u && j.cluster == "aci" && j.queue == "open" && j.job_state == "R")

/-- Number of cached records that the claim counts as queued for the user. -/
def queuedCount (u : String) (js : List JobRec) : Nat :=
  js.countP (fun j => j.job_owner == u && j.cluster == "aci" && j.queue == "open" && j.job_state == "Q")

/-- `Daemon.full` (daemon.py lines 353-385).  The property reads
`self.qstat.jobs` twice: once inside `try` (the bound name `jobs` is then
unused) and once, unguarded, as the iterable of the `for` loop.  Each read
is a fresh cache access with its own environment (`envs1` / `envs2`, jobs
pickle state `jf1` / `jf2`).  An exception from the first read is caught
and answered with `True`; an exception from the second read propagates. -/
def Daemon.full (cfg : QstatConfig) (u : String) (n_run n_queue : Nat)
    (envs1 envs2 : Nat → Env) (jf1 jf2 : Option JobsFileState)
    (s : QstatState) : Except PyErr Bool × QstatState :=
  match QstatBase.jobs cfg envs1 jf1 s with
  | (.error _, s1, _) => (.ok true, s1)
  | (.ok _, s1, _) =>
    match QstatBase.jobs cfg envs2 jf2 s1 with
    | (.error e, s2, _) => (.error e, s2)
    | (.ok js, s2, _) => (.ok (Daemon.fullVerdict u n_run n_queue js), s2)

/-- Configuration consumed by the hand-off engine: the `[Directories]`
section — `basedir` is the per-user base directory, i.e. the configured
template with its `<!User!>` placeholder substituted by the user name
(daemon.py line 305; the textual substitution itself is config plumbing),
`dirName` the per-kind subdirectory names looked up by key as in
`self.config_parser.get('Directories', dir_kind)` — and the `n_run`
limit. -/
structure DaemonCfg where
  basedir : String → String
  dirName : String → String
  n_run : Int

/-- `Daemon.getpath` (daemon.py lines 289-308). -/
def Daemon.getpath (cfg : DaemonCfg) (dir_kind : String) (usr : String) : String :=
  let basedir := cfg.basedir usr
  if dir_kind = "basedir" then basedir else basedir ++ "/" ++ cfg.dirName dir_kind

/-- Observable actions of the hand-off engine on the shared world: a
successful `rename_or_move`, a metadata fix-up, an invocation of the
external submit command, and a file creation (`writeFile` exists so that
the absence of persisted error records is expressible; the source's
error-record write at daemon.py lines 495-498 is commented out). -/
inductive Effect where
  | move (src dest : String)
  | setMeta (path : String)
  | invokeQsub (path : String)
  | writeFile (path : String)
  deriving DecidableEq, Repr

/-- Whether an effect creates a file. -/
def Effect.isWriteFile : Effect → Bool
  | .writeFile _ => true
  | _ => false

/-- Outcomes of the external steps taken during one `Daemon.qsub` call:
whether the claiming move out of the inbox succeeds, whether the submit
command exits zero, and whether the cleanup move succeeds. -/
structure QsubEnv where
  claimMoveOk : Bool
  qsubOk : Bool
  finalMoveOk : Bool

/-- `Daemon.qsub` (daemon.py lines 421-517).  Returns the success flag and
the trace of effects, in order:
* claim the job file by moving it from the inbox (`job` dir) to staging
  (`tmp` dir); on failure return `False` having done nothing else
  (lines 442-447);
* invoke the submit command on the staged path (line 477);
* on `CalledProcessError` retarget the cleanup move back to the original
  inbox path and return `False`; the error text goes to stderr only — the
  writes into the info directory are commented out (lines 479-499);
* the `finally` block (lines 509-517) attempts the cleanup move
  unconditionally; its own failure is only logged. -/
def Daemon.qsub (cfg : DaemonCfg) (env : QsubEnv) (usr job : String) : Bool × List Effect :=
  let job_dir := Daemon.getpath cfg "job" usr
  let tmp_dir := Daemon.getpath cfg "tmp" usr
  let orig := job_dir ++ "/" ++ job
  let tmp := tmp_dir ++ "/" ++ job
  if !env.claimMoveOk then (false, [])
  else
    let submitted := Daemon.getpath cfg "sub" usr ++ "/" ++ job
    let result := env.qsubOk
    let dest := if env.qsubOk then submitted else orig
    let cleanup := if env.finalMoveOk then [Effect.move tmp dest, Effect.setMeta dest] else []
    (result,
      [Effect.move orig tmp, Effect.setMeta tmp, Effect.invokeQsub tmp] ++ cleanup)

/-- Model of Python's `random.randint(a, b)`: a value drawn uniformly from
the inclusive range `[a, b]`, here driven by an external random value `r`
reduced into the range (so a uniformly distributed `r` yields a uniformly
distributed result). -/
def randintM (r a b : Nat) : Nat := a + r % (b - a + 1)

/-- The candidate scan of `Daemon.do_some_work` (daemon.py lines 389-398):
pool the `(usr, filename)` pairs over every configured user's inbox
(`job`) directory, skipping users whose inbox is not a directory and
keeping only regular-file entries.  `fs` maps a directory path to its
listing — entry name paired with its `isfile` status — or `none` when
`not isdir`. -/
def Daemon.candidatePool (cfg : DaemonCfg) (fs : String → Option (List (String × Bool)))
    (users : List String) : List (String × String) :=
  users.foldl
    (fun jobs usr =>
      match fs (Daemon.getpath cfg "job" usr) with
      | none => jobs
      | some entries => jobs ++ (entries.filter (fun e => e.2)).map (fun e => (usr, e.1)))
    []

/-- The pool as the claim words it: all (owner, filename) pairs across
every configured user's inbox directory, skipping users whose inbox
directory does not exist and ignoring entries that are not regular files. -/
def specCandidatePool (cfg : DaemonCfg) (fs : String → Option (List (String × Bool)))
    (users : List String) : List (String × String) :=
  (users.map (fun usr =>
    match fs (Daemon.getpath cfg "job" usr) with
    | none => []
    | some entries => (entries.filter (fun e => e.2)).map (fun e => (usr, e.1)))).flatten

/-- The submission loop of `Daemon.do_some_work` (lines 406-419): while
`submitted < free` and the pool is non-empty, pick the index
`randint(0, n_jobs - 1)` (randomness supplied by `rand iter (n_jobs - 1)`),
pop that pool entry, and call `qsub`; a failed `qsub` breaks the loop.
Recursion is on fuel, which `do_some_work` seeds with the pool size (each
iteration removes one entry, so the fuel never runs out).  The `none` arm
of the lookup is unreachable — `randintM` yields `r % n < n` — and only
keeps the function total.  Returns the accumulated effect trace and the
sequence of picked entries. -/
def Daemon.workLoop (cfg : DaemonCfg) (rand : Nat → Nat → Nat) (qenvs : Nat → QsubEnv)
    (free : Int) :
    Nat → Int → Nat → List (String × String) → List Effect × List (String × String)
  | 0, _, _, _ => ([], [])
  | fuel + 1, submitted, iter, jobs =>
    if submitted < free then
      if jobs.length = 0 then ([], [])
      else
        let idx := randintM (rand iter (jobs.length - 1)) 0 (jobs.length - 1)
        match jobs.get? idx with
        | none => ([], [])
        | some pick =>
          let q := Daemon.qsub cfg (qenvs iter) pick.1 pick.2
          if q.1 then
            let rest := Daemon.workLoop cfg rand qenvs free fuel (submitted + 1) (iter + 1)
              (jobs.eraseIdx idx)
            (q.2 ++ rest.1, pick :: rest.2)
          else (q.2, [pick])
    else ([], [])

/-- `Daemon.do_some_work` (daemon.py lines 387-419): scan the inboxes; if
the pool is empty return having invoked nothing; otherwise compute
`free = self.n_run - self.queue_status['r']` and run the submission loop. -/
def Daemon.do_some_work (cfg : DaemonCfg) (fs : String → Option (List (String × Bool)))
    (users : List String) (rand : Nat → Nat → Nat) (qenvs : Nat → QsubEnv)
    (queueStatusR : Int) : List Effect × List (String × String) :=
  let jobs := Daemon.candidatePool cfg fs users
  if jobs.isEmpty then ([], [])
  else Daemon.workLoop cfg rand qenvs (cfg.n_run - queueStatusR) jobs.length 0 0 jobs

/-! ### Helper lemmas about the cache accessors -/

/-- If an `xml` access returned successfully and did invoke the external
command, the updated state holds the fresh payload stamped at the
invocation time. -/
theorem xml_invoked_ok_state (cfg : QstatConfig) (env : Env) (s : QstatState) (x : XmlDoc)
    (hok : (QstatBase.xml cfg env s).1 = Except.ok x)
    (hinv : (QstatBase.xml cfg env s).2.2 = true) :
    (QstatBase.xml cfg env s).2.1.xmlVal = some x ∧
      (QstatBase.xml cfg env s).2.1.xmlMtime = some env.now := by
  unfold QstatBase.xml xmlRefresh xmlInvoke at *
  split at hok <;> simp_all <;>
    (repeat' split at hok) <;> simp_all

/-- An `xml` access that did not invoke the external command and returned
successfully leaves a state whose in-memory mtime is `none` only if it
was served from memory; in every successful branch the payload is stored. -/
theorem xml_ok_stores (cfg : QstatConfig) (env : Env) (s : QstatState) (x : XmlDoc)
    (hok : (QstatBase.xml cfg env s).1 = Except.ok x) :
    (QstatBase.xml cfg env s).2.1.xmlVal = some x := by
  unfold QstatBase.xml xmlRefresh xmlInvoke at *
  split at hok <;> simp_all <;>
    (repeat' split at hok) <;> simp_all

/-- Running-bucket behaviour of one counting step. -/
theorem jobCountStep_fst (u : String) (acc : Nat × Nat × Nat) (j : JobRec) :
    (jobCountStep u acc j).1 = acc.1 +
      (if j.job_owner == u && j.cluster == "aci" && j.queue == "open" && j.job_state == "R"
       then 1 else 0) := by
  unfold jobCountStep
  by_cases h1 : j.cluster = "aci" <;> by_cases h2 : j.queue = "open" <;>
    by_cases h3 : j.job_owner = u <;> by_cases h4 : j.job_state = "R" <;>
    simp [h1, h2, h3, h4] <;> split <;> simp

/-- Queued-bucket behaviour of one counting step. -/
theorem jobCountStep_snd (u : String) (acc : Nat × Nat × Nat) (j : JobRec) :
    (jobCountStep u acc j).2.1 = acc.2.1 +
      (if j.job_owner == u && j.cluster == "aci" && j.queue == "open" && j.job_state == "Q"
       then 1 else 0) := by
  unfold jobCountStep
  by_cases h1 : j.cluster = "aci" <;> by_cases h2 : j.queue = "open" <;>
    by_cases h3 : j.job_owner = u <;> by_cases h4 : j.job_state = "Q" <;>
    by_cases h5 : j.job_state = "R" <;>
    simp_all

/-- The counting fold computes the claim-side running and queued counts,
for any starting accumulator. -/
theorem jobCounts_go (u : String) (js : List JobRec) :
    ∀ acc : Nat × Nat × Nat,
      (js.foldl (jobCountStep u) acc).1 = acc.1 + runningCount u js ∧
      (js.foldl (jobCountStep u) acc).2.1 = acc.2.1 + queuedCount u js := by
  induction js with
  | nil => intro acc; simp [runningCount, queuedCount]
  | cons j tl ih =>
    intro acc
    obtain ⟨ih1, ih2⟩ := ih (jobCountStep u acc j)
    refine ⟨?_, ?_⟩
    · rw [List.foldl_cons, ih1, jobCountStep_fst]
      simp only [runningCount, List.countP_cons]
      cases hP : (j.job_owner == u && j.cluster == "aci" && j.queue == "open" && j.job_state == "R") <;>
        simp [hP, runningCount] <;> omega
    · rw [List.foldl_cons, ih2, jobCountStep_snd]
      simp only [queuedCount, List.countP_cons]
      cases hP : (j.job_owner == u && j.cluster == "aci" && j.queue == "open" && j.job_state == "Q") <;>
        simp [hP, queuedCount] <;> omega

/-- The admission counters agree with the claim-side counts. -/
theorem jobCounts_spec (u : String) (js : List JobRec) :
    (jobCounts u js).1 = runningCount u js ∧ (jobCounts u js).2.1 = queuedCount u js := by
  simpa [jobCounts] using jobCounts_go u js (0, 0, 0)

/-! ### Claim C2 -/

/-- C2: if the raw-snapshot cache file is stale (absent, or with mtime at
least `stale_sec` old; an unconfigured cache directory also counts), then
the parsed-records on-disk cache file is judged stale as well
(`jobs_file_is_stale` is true whatever the records file looks like), and
the records accessor never loads the records file: its outcome is the same
for every possible state of that file, including one with a fresh mtime. -/
theorem C2_derived_tier_freshness (cfg : QstatConfig) (envs : Nat → Env)
    (jf jf' : Option JobsFileState) (s : QstatState)
    (hx : xml_file_is_stale cfg (envs 0) = true) :
    jobs_file_is_stale cfg (envs 0) jf = true ∧
      QstatBase.jobs cfg envs jf s = QstatBase.jobs cfg envs jf' s := by
  have h1 : jobs_file_is_stale cfg (envs 0) jf = true := by
    simp [jobs_file_is_stale, hx]
  have h2 : jobs_file_is_stale cfg (envs 0) jf' = true := by
    simp [jobs_file_is_stale, hx]
  refine ⟨h1, ?_⟩
  unfold QstatBase.jobs jobsRefresh
  cases s.jobsVal <;> simp [h1, h2]

/-- Fixture for the C2 witness: a configured cache dir whose raw xml file
is absent while the jobs pickle has a fresh mtime (99 at time 100, budget
10). -/
def qcfgC2w : QstatConfig :=
  { staleSec := 10, username := "u", myusername := "u", hasCacheDir := true }

/-- Environment for the C2 witness: xml cache file missing. -/
def qenvsC2w : Nat → Env :=
  fun _ => { now := 100, xmlFile := none, qstat := .ok (.wellFormed []) }

/-- Jobs pickle for the C2 witness: mtime 99, i.e. fresh on its own. -/
def jfC2w : JobsFileState := { mtime := 99, content := some [] }

/-- Witness for C2 at a concrete input: raw file absent, records file one
second old. -/
theorem C2_derived_tier_freshness_witness :
    xml_file_is_stale qcfgC2w (qenvsC2w 0) = true ∧
      (jobs_file_is_stale qcfgC2w (qenvsC2w 0) (some jfC2w) = true ∧
        QstatBase.jobs qcfgC2w qenvsC2w (some jfC2w) qstatInitState =
          QstatBase.jobs qcfgC2w qenvsC2w none qstatInitState) :=
  ⟨by rfl, C2_derived_tier_freshness qcfgC2w qenvsC2w (some jfC2w) none qstatInitState (by rfl)⟩

/-! ### Claim C5 -/

/-- Fixture for C5: no cache directory, a 10-second budget, querying the
operating user. -/
def qcfgC5 : QstatConfig :=
  { staleSec := 10, username := "u", myusername := "u", hasCacheDir := false }

/-- Environment for C5: every attempt sees time 0, no xml cache file, and
a qstat command that returns a malformed snapshot (read mid-write). -/
def qenvsC5 : Nat → Env :=
  fun _ => { now := 0, xmlFile := none, qstat := .ok XmlDoc.malformed }

/-- C5 (code bug): on a malformed snapshot the records accessor raises the
parse error on the FIRST attempt — the external command runs exactly once,
no backoff retry happens, and the in-memory raw entry is NOT invalidated
(`xmlVal` still holds the malformed payload).  The `except IOError` at
qstat_base.py line 341 cannot catch `ElementTree.ParseError`, which
subclasses `SyntaxError`, so the retry/invalidate/backoff machinery the
claim describes is unreachable for malformed XML and `MAX_ATTEMPTS` is
never consulted. -/
theorem C5_parse_error_not_retried :
    QstatBase.jobs qcfgC5 qenvsC5 none qstatInitState =
      (Except.error PyErr.parseError,
        { xmlVal := some XmlDoc.malformed, xmlMtime := some 0, jobsVal := none,
          jobsMtime := none },
        1) := by
  rfl

/-! ### Claim C4 -/

/-- Fixture for C4: the daemon configures `stale_sec = self.sleep - 1`
(daemon.py line 170), so a configured sleep of 1 second gives a zero
staleness budget, making every in-memory entry immediately stale. -/
def qcfgC4 : QstatConfig :=
  { staleSec := 0, username := "u", myusername := "u", hasCacheDir := false }

/-- Environment of the first `self.qstat.jobs` read in `Daemon.full`: the
qstat command succeeds with an empty job list. -/
def qenvsC4a : Nat → Env :=
  fun _ => { now := 0, xmlFile := none, qstat := .ok (.wellFormed []) }

/-- Environment of the second `self.qstat.jobs` read (the `for` loop at
daemon.py line 365): the qstat command now fails. -/
def qenvsC4b : Nat → Env :=
  fun _ => { now := 0, xmlFile := none, qstat := .error () }

/-- C4 (code bug): `Daemon.full` is not exception-safe against the cache.
Lines 359-363 guard only the first `self.qstat.jobs` read (whose result,
bound to `jobs`, is never used); line 365 reads `self.qstat.jobs` again
outside the `try`.  With `stale_sec = 0` the first read succeeds and the
second read re-runs the whole pipeline; when qstat then fails, the
`CalledProcessError` propagates out of `full` instead of yielding `True`.
The first conjunct shows the first read on its own succeeds, so the
escape comes from the unguarded second read. -/
theorem C4_full_propagates_error :
    (QstatBase.jobs qcfgC4 qenvsC4a none qstatInitState).1 = Except.ok [] ∧
      (Daemon.full qcfgC4 "u" 1 1 qenvsC4a qenvsC4b none none qstatInitState).1 =
        Except.error PyErr.calledProcessError := by
  exact ⟨rfl, rfl⟩

/-! ### Claim C1 -/

/-- Fixture for the C1 counterexample: budget 10, caching to disk. -/
def qcfgC1c : QstatConfig :=
  { staleSec := 10, username := "u", myusername := "u", hasCacheDir := true }

/-- Snapshot payload used in the C1 counterexample. -/
def qdocC1 : XmlDoc := .wellFormed []

/-- First read of the C1 counterexample: at time 9 the cache file (mtime
0) is one second away from going stale. -/
def qenvC1c1 : Env :=
  { now := 9, xmlFile := some { mtime := 0, content := some qdocC1 }, qstat := .ok qdocC1 }

/-- Second read of the C1 counterexample, one second later: the file (and
hence the in-memory copy stamped with the file mtime) is now stale. -/
def qenvC1c2 : Env :=
  { now := 10, xmlFile := some { mtime := 0, content := some qdocC1 }, qstat := .ok qdocC1 }

/-- C1 counterexample: two successful reads of the `xml` accessor one
second apart (well within the positive budget of 10), with no intervening
invalidation, where the SECOND read is not served from the in-memory or
on-disk cache: it invokes the external command.  The first read is served
from the cache file and adopts the file's old mtime (qstat_base.py line
287), so by the second read both tiers are stale.  This falsifies the
claim's final conjunct; the at-most-once part survives (and is proved, in
amended form, by `C1_amended_at_most_one_invocation`). -/
theorem C1_counterexample :
    (0 : ℤ) < qcfgC1c.staleSec ∧
      qenvC1c2.now - qenvC1c1.now < qcfgC1c.staleSec ∧
      (QstatBase.xml qcfgC1c qenvC1c1 qstatInitState).1 = Except.ok qdocC1 ∧
      (QstatBase.xml qcfgC1c qenvC1c1 qstatInitState).2.2 = false ∧
      (QstatBase.xml qcfgC1c qenvC1c2
          (QstatBase.xml qcfgC1c qenvC1c1 qstatInitState).2.1).2.2 = true := by
  exact ⟨by decide, by decide, rfl, rfl, rfl⟩

/-- C1 as amended: for every positive `stale_sec`, across two reads of the
`xml` accessor less than `stale_sec` seconds apart with no intervening
invalidation, where the first read returns successfully, the external
command is invoked at most once in total; moreover if the single
invocation happened on the first read, the second read is served from the
cache (it does not invoke the command).  What the counterexample forces us
to drop is only the promise that the second read is always served from a
cache tier: when the first read was served from an aging disk file, the
one permitted invocation may occur on the second read instead. -/
theorem C1_amended_at_most_one_invocation (cfg : QstatConfig) (env1 env2 : Env)
    (s : QstatState) (x : XmlDoc)
    (hpos : 0 < cfg.staleSec)
    (hord : env1.now ≤ env2.now)
    (hgap : env2.now - env1.now < cfg.staleSec)
    (hok : (QstatBase.xml cfg env1 s).1 = Except.ok x) :
    ((QstatBase.xml cfg env1 s).2.2.toNat
        + (QstatBase.xml cfg env2 (QstatBase.xml cfg env1 s).2.1).2.2.toNat ≤ 1) ∧
      ((QstatBase.xml cfg env1 s).2.2 = true →
        (QstatBase.xml cfg env2 (QstatBase.xml cfg env1 s).2.1).2.2 = false) := by
  have key : (QstatBase.xml cfg env1 s).2.2 = true →
      (QstatBase.xml cfg env2 (QstatBase.xml cfg env1 s).2.1).2.2 = false := by
    intro hinv
    obtain ⟨hval, hmt⟩ := xml_invoked_ok_state cfg env1 s x hok hinv
    set s1 := (QstatBase.xml cfg env1 s).2.1 with hs1
    have hstale : staleQ env2.now s1.xmlMtime cfg.staleSec = false := by
      rw [hmt]
      simp only [staleQ, decide_eq_false_iff_not, not_le]
      omega
    unfold QstatBase.xml
    rw [hval, hstale]
    simp
  refine ⟨?_, key⟩
  cases h1 : (QstatBase.xml cfg env1 s).2.2
  · cases h2 : (QstatBase.xml cfg env2 (QstatBase.xml cfg env1 s).2.1).2.2 <;> simp
  · simp [key h1]

/-- Fixture for the C1 witness: no disk cache, so the first read invokes
the command and the second is served from memory. -/
def qcfgC1w : QstatConfig :=
  { staleSec := 10, username := "u", myusername := "u", hasCacheDir := false }

/-- First-read environment of the C1 witness. -/
def qenvC1w1 : Env := { now := 0, xmlFile := none, qstat := .ok qdocC1 }

/-- Second-read environment of the C1 witness, one second later. -/
def qenvC1w2 : Env := { now := 1, xmlFile := none, qstat := .ok qdocC1 }

/-- Witness for the amended C1 at a concrete input. -/
theorem C1_amended_witness :
    (0 : ℤ) < qcfgC1w.staleSec ∧
      qenvC1w2.now - qenvC1w1.now < qcfgC1w.staleSec ∧
      ((QstatBase.xml qcfgC1w qenvC1w1 qstatInitState).2.2.toNat
          + (QstatBase.xml qcfgC1w qenvC1w2
              (QstatBase.xml qcfgC1w qenvC1w1 qstatInitState).2.1).2.2.toNat ≤ 1) :=
  ⟨by decide, by decide,
    (C1_amended_at_most_one_invocation qcfgC1w qenvC1w1 qenvC1w2 qstatInitState qdocC1
      (by decide) (by decide) (by decide) rfl).1⟩

/-! ### Claim C3 -/

/-- C3: for all configured limits `n_run ≥ 1` and `n_queue ≥ 1`, the
admission verdict computed by `Daemon.full` over the cached records is
full exactly when the operating user's running count reaches `n_run` or
the queued count reaches `n_queue`, counting only records whose owner is
the operating user and whose (cluster, queue) is ('aci', 'open'); in
particular it is full at `running = n_run` and not full at
`running = n_run - 1` with `queued < n_queue`. -/
theorem C3_quota_boundary (u : String) (n_run n_queue : Nat) (js : List JobRec)
    (hr : 1 ≤ n_run) (hq : 1 ≤ n_queue) :
    (Daemon.fullVerdict u n_run n_queue js = true ↔
      (n_run ≤ runningCount u js ∨ n_queue ≤ queuedCount u js)) ∧
      (runningCount u js = n_run → Daemon.fullVerdict u n_run n_queue js = true) ∧
      (runningCount u js = n_run - 1 → queuedCount u js < n_queue →
        Daemon.fullVerdict u n_run n_queue js = false) := by
  obtain ⟨h1, h2⟩ := jobCounts_spec u js
  have hv : Daemon.fullVerdict u n_run n_queue js = true ↔
      (n_run ≤ runningCount u js ∨ n_queue ≤ queuedCount u js) := by
    simp only [Daemon.fullVerdict, h1, h2]
    split
    · simp only [Bool.false_eq_true, false_iff]
      omega
    · simp only [true_iff]
      omega
  refine ⟨hv, ?_, ?_⟩
  · intro hrn
    exact hv.mpr (Or.inl (by omega))
  · intro hrn hqn
    cases hfv : Daemon.fullVerdict u n_run n_queue js
    · rfl
    · exact absurd (hv.mp hfv) (by omega)

/-- Record fixture for the C3 witness: one running job of the operating
user on (aci, open). -/
def jsC3 : List JobRec :=
  [{ job_owner := "u", job_state := "R", cluster := "aci", queue := "open" }]

/-- Witness for C3 at a concrete input: limits (2, 3), one running job,
i.e. `running = n_run - 1` and `queued = 0`: not full. -/
theorem C3_quota_boundary_witness :
    (1 ≤ 2 ∧ 1 ≤ 3) ∧
      (Daemon.fullVerdict "u" 2 3 jsC3 = true ↔
        (2 ≤ runningCount "u" jsC3 ∨ 3 ≤ queuedCount "u" jsC3)) ∧
      (runningCount "u" jsC3 = 2 - 1 → queuedCount "u" jsC3 < 3 →
        Daemon.fullVerdict "u" 2 3 jsC3 = false) :=
  ⟨⟨by decide, by decide⟩,
    (C3_quota_boundary "u" 2 3 jsC3 (by decide) (by decide)).1,
    (C3_quota_boundary "u" 2 3 jsC3 (by decide) (by decide)).2.2⟩

/-! ### Claim C6 -/

/-- Job fixture for the C6 counterexample: account `cyberlamp`, server
under `aci.ics.psu.edu`, and a `qos` entry in its `Resource_List`. -/
def jobC6 : JobXml :=
  { job_owner := "u@submit.host"
    job_state := "R"
    server := "torque01.util.production.int.aci.ics.psu.edu"
    account_name := some "cyberlamp"
    resource_list := some [("qos", "cl_higpu")] }

/-- C6 counterexample: an account of `cyberlamp` does NOT always yield
(cluster, queue) = ('cyberlamp', 'default'): for a job whose server name
ends in `aci.ics.psu.edu` and whose `Resource_List` carries a `qos`, the
override at qstat_base.py lines 488-494 rewrites the queue to the qos
value, so (cluster, queue) is not a function of the account field alone. -/
theorem C6_counterexample :
    jobC6.account_name = some "cyberlamp" ∧
      QstatBase.parse_xml (.wellFormed [jobC6]) =
        Except.ok [{ job_owner := "u", job_state := "R", cluster := "cyberlamp",
                     queue := "cl_higpu" }] ∧
      "cl_higpu" ≠ "default" := by
  exact ⟨rfl, rfl, by decide⟩

/-- The account → (cluster, queue) resolution as amended: `cyberlamp`
maps to cluster `cyberlamp` whose queue is `default` unless the job's
server ends with `aci.ics.psu.edu` and a `Resource_List` is present, in
which case the queue is the `qos` text (falling back to `default` when no
qos entry exists); an account in `ACI_QUEUES` maps to ('aci', lowercased
account); any other account (or an absent one) resolves to nothing,
which the parser turns into a hard `ValueError`. -/
def specClusterQueue (account server : String)
    (resource_list : Option (List (String × String))) : Option (String × String) :=
  if account = "cyberlamp" then
    some ("cyberlamp",
      match resource_list with
      | none => "default"
      | some rl =>
        if pyEndsWith server "aci.ics.psu.edu" then
          match rl.find? (fun p => p.1 = "qos") with
          | none => "default"
          | some p => p.2
        else "default")
  else if account ∈ ACI_QUEUES then some ("aci", pyLower account)
  else none

/-- C6 as amended: `parse_xml` parses the job elements in order with
`parseJob`, and per job the derived (cluster, queue) is exactly
`specClusterQueue` of the raw account, server and resource list — i.e.
`cyberlamp` yields cluster `cyberlamp` with queue `default` or the job's
qos (per the server-name override), an `ACI_QUEUES` member yields
('aci', lowercased account), and any other or absent account makes the
parse fail with a raised `ValueError` — no record is silently dropped or
given a default (cluster, queue). -/
theorem C6_amended_cluster_queue_mapping (j : JobXml) :
    (∀ js : List JobXml, QstatBase.parse_xml (.wellFormed js) = js.mapM parseJob) ∧
      (∀ a : String, j.account_name = some a →
        (∀ cq : String × String,
          specClusterQueue a j.server j.resource_list = some cq ↔
            ∃ rec : JobRec, parseJob j = .ok rec ∧ rec.cluster = cq.1 ∧ rec.queue = cq.2) ∧
          (specClusterQueue a j.server j.resource_list = none →
            ∃ m, parseJob j = .error (.valueError m))) ∧
      (j.account_name = none → ∃ m, parseJob j = .error (.valueError m)) := by
  refine ⟨fun js => rfl, ?_, ?_⟩
  · intro a ha
    constructor
    · intro cq
      unfold parseJob specClusterQueue
      rw [ha]
      by_cases hc : a = "cyberlamp"
      · simp only [hc, if_pos rfl]
        constructor
        · rintro h
          exact ⟨_, rfl, by
            obtain rfl : ("cyberlamp", _) = cq := Option.some.inj h
            exact rfl, by
            obtain rfl : ("cyberlamp", _) = cq := Option.some.inj h
            exact rfl⟩
        · rintro ⟨rec, hrec, hcl, hq⟩
          obtain rfl : _ = rec := (Except.ok.inj hrec)
          exact congrArg some (Prod.ext_iff.mpr ⟨hcl, hq⟩)
      · by_cases hm : a ∈ ACI_QUEUES
        · simp only [hc, if_neg hc, if_pos hm, hm, if_true]
          constructor
          · intro h
            exact ⟨_, rfl, by
              obtain rfl : ("aci", pyLower a) = cq := Option.some.inj h
              exact rfl, by
              obtain rfl : ("aci", pyLower a) = cq := Option.some.inj h
              exact rfl⟩
          · rintro ⟨rec, hrec, hcl, hq⟩
            obtain rfl : _ = rec := (Except.ok.inj hrec)
            exact congrArg some (Prod.ext_iff.mpr ⟨hcl, hq⟩)
        · simp [hc, hm]
    · intro hnone
      unfold specClusterQueue at hnone
      unfold parseJob
      rw [ha]
      by_cases hc : a = "cyberlamp"
      · simp [hc] at hnone
      · by_cases hm : a ∈ ACI_QUEUES
        · simp [hc, hm] at hnone
        · simp [hc, hm]
  · intro hnone
    unfold parseJob
    rw [hnone]
    exact ⟨_, rfl⟩

/-- Job fixture for the C6 witness: account `open`, a member of
`ACI_QUEUES`. -/
def jobC6w : JobXml :=
  { job_owner := "w@submit.host"
    job_state := "Q"
    server := "torque01.util.production.int.aci.ics.psu.edu"
    account_name := some "open"
    resource_list := none }

/-- Witness for the amended C6 at a concrete input: account `open`
resolves to ('aci', 'open') and `parseJob` agrees. -/
theorem C6_amended_witness :
    jobC6w.account_name = some "open" ∧
      (specClusterQueue "open" jobC6w.server jobC6w.resource_list = some ("aci", "open") ↔
        ∃ rec : JobRec, parseJob jobC6w = .ok rec ∧ rec.cluster = "aci" ∧ rec.queue = "open") :=
  ⟨rfl,
    ((C6_amended_cluster_queue_mapping jobC6w).2.1 "open" rfl).1 ("aci", "open")⟩

/-! ### Helper lemmas about the hand-off engine -/

/-- The candidate-scan fold, for any starting accumulator, appends the
per-user inbox contributions in order. -/
theorem candidatePool_go (cfg : DaemonCfg) (fs : String → Option (List (String × Bool)))
    (us : List String) :
    ∀ init : List (String × String),
      List.foldl
        (fun jobs usr =>
          match fs (Daemon.getpath cfg "job" usr) with
          | none => jobs
          | some entries => jobs ++ (entries.filter (fun e => e.2)).map (fun e => (usr, e.1)))
        init us
      = init ++ specCandidatePool cfg fs us := by
  induction us with
  | nil => intro init; simp [specCandidatePool]
  | cons u tl ih =>
    intro init
    rw [List.foldl_cons]
    cases hfs : fs (Daemon.getpath cfg "job" u) <;>
      simp [hfs, ih, specCandidatePool, List.append_assoc]

/-- The scan of `do_some_work` computes exactly the pool the claim
describes. -/
theorem candidatePool_eq_spec (cfg : DaemonCfg) (fs : String → Option (List (String × Bool)))
    (users : List String) :
    Daemon.candidatePool cfg fs users = specCandidatePool cfg fs users := by
  unfold Daemon.candidatePool
  simpa using candidatePool_go cfg fs users []

/-- The pool only depends on the inbox listings of the scanned users. -/
theorem specCandidatePool_congr (cfg : DaemonCfg)
    (fs1 fs2 : String → Option (List (String × Bool))) (users : List String)
    (h : ∀ u ∈ users, fs1 (Daemon.getpath cfg "job" u) = fs2 (Daemon.getpath cfg "job" u)) :
    specCandidatePool cfg fs1 users = specCandidatePool cfg fs2 users := by
  unfold specCandidatePool
  congr 1
  apply List.map_congr_left
  intro u hu
  rw [h u hu]

/-! ### Claim C7 -/

/-- Directory configuration fixture shared by the hand-off claims: each
user's base directory with subdirectory names equal to their config keys
and a run limit of 5. -/
def dcfgW : DaemonCfg :=
  { basedir := fun u => "/storage/home/" ++ u ++ "/openQ"
    dirName := fun k => k
    n_run := 5 }

/-- Step outcomes for the C7 scenario: the claim move succeeds, the submit
command exits non-zero, the cleanup move succeeds. -/
def qsubEnvC7 : QsubEnv := { claimMoveOk := true, qsubOk := false, finalMoveOk := true }

/-- C7 counterexample: when the submit command exits non-zero, `qsub`
returns false and the staged file is moved back to its original inbox
path, but NO error record is persisted anywhere — the whole effect trace
contains no file creation, because the write of the error info into the
owner's info directory (daemon.py lines 455-459 and 494-498) is commented
out.  This falsifies the claim's persistence conjunct. -/
theorem C7_counterexample :
    Daemon.qsub dcfgW qsubEnvC7 "alice" "j1" =
      (false,
        [Effect.move "/storage/home/alice/openQ/job/j1" "/storage/home/alice/openQ/tmp/j1",
         Effect.setMeta "/storage/home/alice/openQ/tmp/j1",
         Effect.invokeQsub "/storage/home/alice/openQ/tmp/j1",
         Effect.move "/storage/home/alice/openQ/tmp/j1" "/storage/home/alice/openQ/job/j1",
         Effect.setMeta "/storage/home/alice/openQ/job/j1"]) ∧
      (Daemon.qsub dcfgW qsubEnvC7 "alice" "j1").2.all (fun e => !(Effect.isWriteFile e)) = true := by
  exact ⟨rfl, rfl⟩

/-- C7 as amended: whenever the external submit command exits non-zero for
a staged job file (and the claiming and cleanup moves succeed), `qsub`
returns false and the staged file is moved back to its original inbox
path so it can be picked again later; the error text is reported to
stderr only — no error record is created in the owner's info directory
(that write is commented out in the source), so the effect trace is
exactly claim-move, metadata, submit invocation, rollback move, metadata,
with no file creation. -/
theorem C7_amended_rollback_no_error_record (cfg : DaemonCfg) (env : QsubEnv)
    (usr job : String)
    (hclaim : env.claimMoveOk = true) (hfail : env.qsubOk = false)
    (hfinal : env.finalMoveOk = true) :
    Daemon.qsub cfg env usr job =
      (false,
        [Effect.move (Daemon.getpath cfg "job" usr ++ "/" ++ job)
            (Daemon.getpath cfg "tmp" usr ++ "/" ++ job),
         Effect.setMeta (Daemon.getpath cfg "tmp" usr ++ "/" ++ job),
         Effect.invokeQsub (Daemon.getpath cfg "tmp" usr ++ "/" ++ job),
         Effect.move (Daemon.getpath cfg "tmp" usr ++ "/" ++ job)
            (Daemon.getpath cfg "job" usr ++ "/" ++ job),
         Effect.setMeta (Daemon.getpath cfg "job" usr ++ "/" ++ job)]) ∧
      (Daemon.qsub cfg env usr job).2.all (fun e => !(Effect.isWriteFile e)) = true := by
  have h : Daemon.qsub cfg env usr job =
      (false,
        [Effect.move (Daemon.getpath cfg "job" usr ++ "/" ++ job)
            (Daemon.getpath cfg "tmp" usr ++ "/" ++ job),
         Effect.setMeta (Daemon.getpath cfg "tmp" usr ++ "/" ++ job),
         Effect.invokeQsub (Daemon.getpath cfg "tmp" usr ++ "/" ++ job),
         Effect.move (Daemon.getpath cfg "tmp" usr ++ "/" ++ job)
            (Daemon.getpath cfg "job" usr ++ "/" ++ job),
         Effect.setMeta (Daemon.getpath cfg "job" usr ++ "/" ++ job)]) := by
    unfold Daemon.qsub
    simp [hclaim, hfail, hfinal]
  refine ⟨h, ?_⟩
  rw [h]
  rfl

/-- Witness for the amended C7 at a concrete input. -/
theorem C7_amended_witness :
    Daemon.qsub dcfgW qsubEnvC7 "bob" "job2" =
      (false,
        [Effect.move (Daemon.getpath dcfgW "job" "bob" ++ "/" ++ "job2")
            (Daemon.getpath dcfgW "tmp" "bob" ++ "/" ++ "job2"),
         Effect.setMeta (Daemon.getpath dcfgW "tmp" "bob" ++ "/" ++ "job2"),
         Effect.invokeQsub (Daemon.getpath dcfgW "tmp" "bob" ++ "/" ++ "job2"),
         Effect.move (Daemon.getpath dcfgW "tmp" "bob" ++ "/" ++ "job2")
            (Daemon.getpath dcfgW "job" "bob" ++ "/" ++ "job2"),
         Effect.setMeta (Daemon.getpath dcfgW "job" "bob" ++ "/" ++ "job2")]) ∧
      (Daemon.qsub dcfgW qsubEnvC7 "bob" "job2").2.all (fun e => !(Effect.isWriteFile e)) = true :=
  C7_amended_rollback_no_error_record dcfgW qsubEnvC7 "bob" "job2" rfl rfl rfl

/-! ### Claim C10 -/

/-- Step outcomes for the C10 scenario: the claiming move out of the inbox
fails (for instance because another daemon instance already moved the
file). -/
def qsubEnvC10 : QsubEnv := { claimMoveOk := false, qsubOk := true, finalMoveOk := true }

/-- C10: if the initial move of the job file from the inbox to staging
fails, `qsub` returns false with an EMPTY effect trace: the submit command
is not invoked and no file is moved, created or deleted — the observable
filesystem state is untouched by the failed claim (daemon.py lines
442-447 return before the submit block, and the `finally` cleanup belongs
to the later `try`, which is never entered). -/
theorem C10_failed_claim_no_effects (cfg : DaemonCfg) (env : QsubEnv) (usr job : String)
    (h : env.claimMoveOk = false) :
    Daemon.qsub cfg env usr job = (false, []) := by
  unfold Daemon.qsub
  simp [h]

/-- Witness for C10 at a concrete input. -/
theorem C10_failed_claim_witness :
    qsubEnvC10.claimMoveOk = false ∧
      Daemon.qsub dcfgW qsubEnvC10 "alice" "j1" = (false, []) :=
  ⟨rfl, C10_failed_claim_no_effects dcfgW qsubEnvC10 "alice" "j1" rfl⟩

/-! ### Claim C8 -/

/-- Filesystem fixture for the C8 counterexample: alice's inbox (`job`
directory) is empty while her staging (`tmp`) directory holds an orphaned
job file left by a crash. -/
def fsC8 : String → Option (List (String × Bool)) := fun p =>
  if p = Daemon.getpath dcfgW "job" "alice" then some []
  else if p = Daemon.getpath dcfgW "tmp" "alice" then some [("orphan.pbs", true)]
  else none

/-- Submit-step outcomes for the C8 scenario (all succeeding — they are
never reached). -/
def qenvsC8 : Nat → QsubEnv := fun _ => { claimMoveOk := true, qsubOk := true, finalMoveOk := true }

/-- C8 counterexample: with an orphaned file present in the staging
directory and an empty inbox, the per-cycle candidate scan of
`do_some_work` (daemon.py lines 389-398, which lists only
`getpath('job', usr)`) produces an empty pool and the cycle ends with no
submit attempt and no pick: the staging entry is neither included in the
scan nor retried, contradicting the claim. -/
theorem C8_counterexample :
    fsC8 (Daemon.getpath dcfgW "tmp" "alice") = some [("orphan.pbs", true)] ∧
      Daemon.candidatePool dcfgW fsC8 ["alice"] = [] ∧
      Daemon.do_some_work dcfgW fsC8 ["alice"] (fun _ _ => 0) qenvsC8 0 = ([], []) := by
  exact ⟨rfl, rfl, rfl⟩

/-- C8 as amended: the per-cycle candidate scan reads ONLY each candidate
user's inbox (`job`) directory — the staging (`tmp`) directories are
never consulted, so a job file left in staging by a crash is not retried
by later cycles (it stays there until manual recovery): both the pool and
the entire outcome of a cycle are unchanged under arbitrary changes to
everything outside the scanned inbox listings, staging contents included. -/
theorem C8_amended_inbox_only_scan (cfg : DaemonCfg)
    (fs1 fs2 : String → Option (List (String × Bool))) (users : List String)
    (rand : Nat → Nat → Nat) (qenvs : Nat → QsubEnv) (r : Int)
    (hagree : ∀ u ∈ users,
      fs1 (Daemon.getpath cfg "job" u) = fs2 (Daemon.getpath cfg "job" u)) :
    Daemon.candidatePool cfg fs1 users = Daemon.candidatePool cfg fs2 users ∧
      Daemon.do_some_work cfg fs1 users rand qenvs r =
        Daemon.do_some_work cfg fs2 users rand qenvs r := by
  have hpool : Daemon.candidatePool cfg fs1 users = Daemon.candidatePool cfg fs2 users := by
    rw [candidatePool_eq_spec, candidatePool_eq_spec]
    exact specCandidatePool_congr cfg fs1 fs2 users hagree
  refine ⟨hpool, ?_⟩
  unfold Daemon.do_some_work
  rw [hpool]

/-- Filesystem fixture for the C8 witness: same inbox listing as `fsC8`
but with the staging directory absent. -/
def fsC8b : String → Option (List (String × Bool)) := fun p =>
  if p = Daemon.getpath dcfgW "job" "alice" then some [] else none

/-- Witness for the amended C8 at a concrete input: deleting the staging
orphan changes nothing about the cycle. -/
theorem C8_amended_witness :
    Daemon.candidatePool dcfgW fsC8 ["alice"] = Daemon.candidatePool dcfgW fsC8b ["alice"] ∧
      Daemon.do_some_work dcfgW fsC8 ["alice"] (fun _ _ => 0) qenvsC8 0 =
        Daemon.do_some_work dcfgW fsC8b ["alice"] (fun _ _ => 0) qenvsC8 0 :=
  C8_amended_inbox_only_scan dcfgW fsC8 fsC8b ["alice"] (fun _ _ => 0) qenvsC8 0
    (by intro u hu; rcases List.mem_singleton.mp hu with rfl; rfl)

/-! ### Claim C9 -/

/-- First step of the submission loop: with fuel matching a non-empty
pool and room to submit, the first picked entry is the pool element at
index `randint(0, n_jobs - 1)`, whatever `qsub` then does. -/
theorem workLoop_head_pick (cfg : DaemonCfg) (rand : Nat → Nat → Nat) (qenvs : Nat → QsubEnv)
    (free : Int) (jobs : List (String × String)) (k : Nat)
    (hlen : jobs.length = k + 1) (hfree : (0 : Int) < free) :
    (Daemon.workLoop cfg rand qenvs free (k + 1) 0 0 jobs).2.head? =
      jobs.get? (randintM (rand 0 (jobs.length - 1)) 0 (jobs.length - 1)) := by
  have hpos : 0 < jobs.length := by omega
  have hidx : randintM (rand 0 (jobs.length - 1)) 0 (jobs.length - 1) < jobs.length := by
    simpa [randintM, Nat.sub_add_cancel hpos] using Nat.mod_lt (rand 0 (jobs.length - 1)) hpos
  have hget : jobs.get? (randintM (rand 0 (jobs.length - 1)) 0 (jobs.length - 1)) =
      some (jobs.get ⟨randintM (rand 0 (jobs.length - 1)) 0 (jobs.length - 1), hidx⟩) :=
    List.get?_eq_get hidx
  rw [Daemon.workLoop]
  rw [if_pos hfree, if_neg (by omega : ¬ jobs.length = 0)]
  simp only [hget]
  cases hq : (Daemon.qsub cfg (qenvs 0) (jobs.get ⟨_, hidx⟩).1 (jobs.get ⟨_, hidx⟩).2).1 <;>
    simp [hq]

/-- C9: the hand-off engine pools all (owner, filename) pairs across every
configured user's inbox directory (skipping users whose inbox does not
exist, ignoring non-file entries) — formally, the pool the code computes
is exactly `specCandidatePool`; an empty pool makes the cycle return with
no effect (in particular no submit invocation) and no pick; with a
non-empty pool and room to submit, the pick is the pool element indexed
by `randint(0, n_jobs - 1)` — every index is hit by exactly the random
values congruent to it, so a uniform `randint` selects every pool
element, regardless of owner, with equal probability. -/
theorem C9_selection_policy (cfg : DaemonCfg) (fs : String → Option (List (String × Bool)))
    (users : List String) (rand : Nat → Nat → Nat) (qenvs : Nat → QsubEnv) (r : Int) :
    Daemon.candidatePool cfg fs users = specCandidatePool cfg fs users ∧
      (Daemon.candidatePool cfg fs users = [] →
        Daemon.do_some_work cfg fs users rand qenvs r = ([], [])) ∧
      (Daemon.candidatePool cfg fs users ≠ [] → 0 < cfg.n_run - r →
        (Daemon.do_some_work cfg fs users rand qenvs r).2.head? =
          (Daemon.candidatePool cfg fs users).get?
            (randintM (rand 0 ((Daemon.candidatePool cfg fs users).length - 1)) 0
              ((Daemon.candidatePool cfg fs users).length - 1))) ∧
      (∀ i : Fin (Daemon.candidatePool cfg fs users).length,
        0 < cfg.n_run - r →
        rand 0 ((Daemon.candidatePool cfg fs users).length - 1) = i.val →
        (Daemon.do_some_work cfg fs users rand qenvs r).2.head? =
          some ((Daemon.candidatePool cfg fs users).get i)) := by
  have hpick : Daemon.candidatePool cfg fs users ≠ [] → 0 < cfg.n_run - r →
      (Daemon.do_some_work cfg fs users rand qenvs r).2.head? =
        (Daemon.candidatePool cfg fs users).get?
          (randintM (rand 0 ((Daemon.candidatePool cfg fs users).length - 1)) 0
            ((Daemon.candidatePool cfg fs users).length - 1)) := by
    intro hne hfree
    obtain ⟨p, tl, hP⟩ : ∃ p tl, Daemon.candidatePool cfg fs users = p :: tl := by
      cases hP : Daemon.candidatePool cfg fs users with
      | nil => exact absurd hP hne
      | cons p tl => exact ⟨p, tl, rfl⟩
    unfold Daemon.do_some_work
    rw [hP]
    simp only [List.isEmpty_cons, Bool.false_eq_true, if_false, List.length_cons]
    simpa using workLoop_head_pick cfg rand qenvs (cfg.n_run - r) (p :: tl) tl.length
      (by simp) hfree
  refine ⟨candidatePool_eq_spec cfg fs users, ?_, hpick, ?_⟩
  · intro h
    unfold Daemon.do_some_work
    simp [h]
  · intro i hfree hrand
    have hn : 0 < (Daemon.candidatePool cfg fs users).length := i.pos
    have hne : Daemon.candidatePool cfg fs users ≠ [] := by
      intro hnil
      rw [hnil] at hn
      simp at hn
    have h := hpick hne hfree
    rw [hrand] at h
    have hidx : randintM i.val 0 ((Daemon.candidatePool cfg fs users).length - 1) = i.val := by
      simp [randintM, Nat.sub_add_cancel hn, Nat.mod_eq_of_lt i.isLt]
    rw [hidx] at h
    rw [h, List.get?_eq_get i.isLt]

/-- Filesystem fixture for the C9 witness: alice's inbox holds one file
and one non-file entry, bob's inbox one file; the pool is
[(alice, a1), (bob, b1)]. -/
def fsC9 : String → Option (List (String × Bool)) := fun p =>
  if p = Daemon.getpath dcfgW "job" "alice" then some [("a1", true), ("a2", false)]
  else if p = Daemon.getpath dcfgW "job" "bob" then some [("b1", true)]
  else none

/-- Submit-step outcomes for the C9 witness. -/
def qenvsC9 : Nat → QsubEnv := fun _ => { claimMoveOk := true, qsubOk := true, finalMoveOk := true }

/-- Witness for C9 at a concrete input: a random value of 1 picks the
second pool element, (bob, b1). -/
theorem C9_selection_policy_witness :
    Daemon.candidatePool dcfgW fsC9 ["alice", "bob"] =
        specCandidatePool dcfgW fsC9 ["alice", "bob"] ∧
      (0 : Int) < dcfgW.n_run - 0 ∧
      (Daemon.do_some_work dcfgW fsC9 ["alice", "bob"] (fun _ _ => 1) qenvsC9 0).2.head? =
        some ((Daemon.candidatePool dcfgW fsC9 ["alice", "bob"]).get ⟨1, by decide⟩) :=
  ⟨(C9_selection_policy dcfgW fsC9 ["alice", "bob"] (fun _ _ => 1) qenvsC9 0).1,
    by decide,
    (C9_selection_policy dcfgW fsC9 ["alice", "bob"] (fun _ _ => 1) qenvsC9 0).2.2.2
      ⟨1, by decide⟩ (by decide) rfl⟩
